import Mathlib

/-!
Verification of the padded-length calculator of OpenCL-examples
(`src/example05/main.c`) against its natural-language specification.

The component under study is the function `roundUpToNearest` (main.c,
lines 20-27) together with the padded-length computation
`N_pad = 2*roundUpToNearest((N+2)/2, 32)` (main.c, line 49) and the
downstream configuration derived from it (lines 50 and 78-81), plus the
host-buffer initialisation (lines 68-76).

All quantities the program computes here are small non-negative machine
integers (`N = 128`, intermediate values below 2^10), far from any
overflow boundary, so C `int` / `unsigned int` arithmetic agrees with
`Nat` arithmetic on them: `x % n` is `Nat.mod`, and the C integer
division `(N+2)/2` is `Nat` (floor) division.  The error-handling claim
also needs negative group widths, for which a separate `Int` embedding
with C's truncated division/remainder (`Int.div` / `Int.tmod`) is used,
with the (in C undefined) division by zero surfaced as an `Except.error`.
-/

/-- `roundUpToNearest` from `src/example05/main.c`, lines 20-27:
`x_rem = x % n; if (x_rem == 0) return x; return x + (n - x_rem);`
embedded over `Nat` (the program only passes non-negative values). -/
def roundUpToNearest (x n : Nat) : Nat :=
  if x % n = 0 then x else x + (n - x % n)

/-- The padded-length computation of `src/example05/main.c`, line 49,
`N_pad = 2*roundUpToNearest( (N+2)/2, 32 )`, generalised over the group
width exactly as the spec's contract `paddedLength(N, groupWidth)` does.
`(N + 2) / 2` is C unsigned (truncating) division, i.e. `Nat` division. -/
def paddedLength (N groupWidth : Nat) : Nat :=
  2 * roundUpToNearest ((N + 2) / 2) groupWidth

/-- The spec's step-by-step algorithm, written from the spec's words
(Section 4.1): `half = ceil((N + 2) / 2)` (over `Nat`: `(N + 3) / 2`),
then round `half` up to the nearest multiple of `groupWidth`, then
double.  Kept separate from `paddedLength` so the two can be compared. -/
def paddedLengthSpecAlg (N groupWidth : Nat) : Nat :=
  2 * (if (N + 3) / 2 % groupWidth = 0 then (N + 3) / 2
       else (N + 3) / 2 + (groupWidth - (N + 3) / 2 % groupWidth))

/-- The spec's step-by-step algorithm with step 1 amended to the floor
division the code actually performs: `half = (N + 2) / 2` (truncating),
then round up to the nearest multiple of `groupWidth`, then double. -/
def paddedLengthFloorAlg (N groupWidth : Nat) : Nat :=
  2 * (if (N + 2) / 2 % groupWidth = 0 then (N + 2) / 2
       else (N + 2) / 2 + (groupWidth - (N + 2) / 2 % groupWidth))

/-- `roundUpToNearest` embedded over `Int` with C `int` semantics:
C's `%` on `int` is the truncated remainder `Int.tmod` (sign of the
dividend), defined in C for any nonzero divisor, also a negative one;
division by zero is undefined behaviour in C and is surfaced here as an
`Except.error`.  Apart from that error case the body is exactly
main.c lines 20-27. -/
def roundUpToNearestE (x n : Int) : Except String Int :=
  if n = 0 then Except.error "division by zero"
  else if Int.tmod x n = 0 then Except.ok x
  else Except.ok (x + (n - Int.tmod x n))

/-- The padded-length computation over `Int` (C truncated division
`Int.div` for `(N + 2) / 2`), propagating the division-by-zero error of
`roundUpToNearestE`.  The source performs no argument validation, so no
other error case exists. -/
def paddedLengthE (N groupWidth : Int) : Except String Int :=
  Except.map (fun r => 2 * r) (roundUpToNearestE (Int.tdiv (N + 2) 2) groupWidth)

/-- True exactly when a computation returned a value rather than an
error. -/
def exceptReturnsValue {ε α : Type} : Except ε α → Bool
  | Except.ok _ => true
  | Except.error _ => false

/-- The padded-length computation as a state transformer over an
arbitrary program state `σ`.  The C function reads only its two
parameters and writes nothing (no globals, no pointers), so its faithful
stateful embedding returns the pure value and the state unchanged. -/
def paddedLengthSt {σ : Type} (N groupWidth : Nat) (s : σ) : Nat × σ :=
  (paddedLength N groupWidth, s)

/-- Host-buffer initialisation, main.c lines 68-76:
`h_v = malloc(N_bytes)` leaves the buffer contents indeterminate
(modelled by an arbitrary function `m` giving the pre-existing memory
contents), then the loop `for (i = 0; i < N; i++) h_v[i] = i;` writes
only the first `N` positions.  The stored doubles in this program are
small integers, represented exactly, so values are modelled as `Int`. -/
def initHostBuffer (N : Nat) (m : Nat → Int) : Nat → Int :=
  fun j => if j < N then (j : Int) else m j

/-- `N` from main.c line 48. -/
def N_main : Nat := 128

/-- `N_pad` from main.c line 49 (group width 32 hard-coded there). -/
def N_pad_main : Nat := 2 * roundUpToNearest ((N_main + 2) / 2) 32

/-- `sizeof(double)` on the targeted platforms. -/
def sizeof_double : Nat := 8

/-- `N_bytes = N_pad * sizeof(double)` from main.c line 50. -/
def N_bytes_main : Nat := N_pad_main * sizeof_double

/-- `globalSize = N_pad / 2` from main.c line 80. -/
def globalSize_main : Nat := N_pad_main / 2

/-- `localSize = 32` from main.c line 81. -/
def localSize_main : Nat := 32

/- -------------------- helper lemmas (shared) -------------------- -/

theorem roundUpToNearest_ge (x n : Nat) : x ≤ roundUpToNearest x n := by
  unfold roundUpToNearest
  split <;> omega

theorem roundUpToNearest_dvd (x n : Nat) (hn : 0 < n) :
    n ∣ roundUpToNearest x n := by
  unfold roundUpToNearest
  split
  · exact Nat.dvd_of_mod_eq_zero (by assumption)
  · refine ⟨x / n + 1, ?_⟩
    have h := Nat.div_add_mod x n
    have h2 : x % n < n := Nat.mod_lt _ hn
    have h3 : n * (x / n + 1) = n * (x / n) + n := by ring
    omega

theorem roundUpToNearest_min (x n m : Nat) (hn : 0 < n) (hd : n ∣ m)
    (hx : x ≤ m) : roundUpToNearest x n ≤ m := by
  unfold roundUpToNearest
  split
  · exact hx
  · obtain ⟨k, rfl⟩ := hd
    have h := Nat.div_add_mod x n
    have h2 : x % n < n := Nat.mod_lt _ hn
    have hq : x / n + 1 ≤ k := by
      by_contra hcon
      push_neg at hcon
      have hk : k ≤ x / n := by omega
      have : n * k ≤ n * (x / n) := Nat.mul_le_mul_left n hk
      omega
    have h4 : n * (x / n + 1) ≤ n * k := Nat.mul_le_mul_left n hq
    have h3 : n * (x / n + 1) = n * (x / n) + n := by ring
    omega

theorem roundUpToNearest_eq_self_iff (x n : Nat) (hn : 0 < n) :
    roundUpToNearest x n = x ↔ n ∣ x := by
  unfold roundUpToNearest
  split
  · simpa using Nat.dvd_of_mod_eq_zero (by assumption)
  · constructor
    · intro h
      have h2 : x % n < n := Nat.mod_lt _ hn
      omega
    · intro h
      obtain ⟨k, rfl⟩ := h
      have : n * k % n = 0 := Nat.mul_mod_right n k
      omega

/- -------------------- C5: concrete values -------------------- -/

/-- C5: the padded-length computation yields
`paddedLength 128 32 = 192`, `paddedLength 30 32 = 64` and
`paddedLength 62 32 = 64`, exactly the concrete cases the spec lists. -/
theorem paddedLength_concrete_values :
    paddedLength 128 32 = 192 ∧ paddedLength 30 32 = 64 ∧
      paddedLength 62 32 = 64 := by
  decide

/-- C1 (counterexample): at the odd length `N = 63` with group width 32
the code's computation returns `64`, which is smaller than `N + 2 = 65`,
so `paddedLength N groupWidth ≥ N + 2` fails for some positive inputs. -/
theorem paddedLength_ge_counterexample :
    paddedLength 63 32 = 64 ∧ ¬ (63 + 2 ≤ paddedLength 63 32) := by
  decide

/-- C1 (amended): for every positive even `N` and positive `groupWidth`
the padded-length computation returns at least `N + 2`.  (For odd `N`
the truncating division `(N + 2) / 2` can lose the guarantee, as the
counterexample `N = 63` shows.) -/
theorem paddedLength_ge_of_even (N g : Nat) (hN : 0 < N) (hg : 0 < g)
    (hev : N % 2 = 0) : N + 2 ≤ paddedLength N g := by
  have h := roundUpToNearest_ge ((N + 2) / 2) g
  unfold paddedLength
  omega

/-- Witness for C1 (amended) at `N = 128`, `groupWidth = 32`. -/
theorem paddedLength_ge_of_even_witness :
    0 < 128 ∧ 0 < 32 ∧ 128 % 2 = 0 ∧ 128 + 2 ≤ paddedLength 128 32 :=
  ⟨by decide, by decide, by decide,
    paddedLength_ge_of_even 128 32 (by decide) (by decide) (by decide)⟩

/-- C2 (counterexample): the spec's step 1 says `half = ceil((N+2)/2)`,
but the code computes the truncating division `(N+2)/2`.  At `N = 63`,
`groupWidth = 32` the spec's algorithm yields 128 while the code yields
64, so the claimed step sequence does not describe the code. -/
theorem paddedLength_specAlg_counterexample :
    paddedLength 63 32 = 64 ∧ paddedLengthSpecAlg 63 32 = 128 ∧
      paddedLength 63 32 ≠ paddedLengthSpecAlg 63 32 := by
  decide

/-- C2 (amended): with step 1 amended to the floor (truncating) division
`half = (N + 2) / 2`, the code's computation is exactly the three-step
algorithm: compute `half`, round it up to the nearest multiple of
`groupWidth` (unchanged when `half % groupWidth = 0`, otherwise add
`groupWidth - half % groupWidth`), and double the result. -/
theorem paddedLength_eq_floorAlg (N g : Nat) (hN : 0 < N) (hg : 0 < g) :
    paddedLength N g = paddedLengthFloorAlg N g := rfl

/-- Witness for C2 (amended) at `N = 128`, `groupWidth = 32`. -/
theorem paddedLength_eq_floorAlg_witness :
    0 < 128 ∧ 0 < 32 ∧ paddedLength 128 32 = paddedLengthFloorAlg 128 32 :=
  ⟨by decide, by decide, paddedLength_eq_floorAlg 128 32 (by decide) (by decide)⟩

/-- C4: for every positive `N` and positive `groupWidth` the result of
the padded-length computation is even, and the result divided by 2 is a
multiple of `groupWidth` (its remainder modulo `groupWidth` is 0). -/
theorem paddedLength_even_and_group_aligned (N g : Nat) (hN : 0 < N)
    (hg : 0 < g) :
    paddedLength N g % 2 = 0 ∧ paddedLength N g / 2 % g = 0 := by
  obtain ⟨k, hk⟩ := roundUpToNearest_dvd ((N + 2) / 2) g hg
  unfold paddedLength
  rw [hk]
  constructor
  · omega
  · rw [Nat.mul_div_cancel_left (g * k) (by norm_num : (0:Nat) < 2)]
    exact Nat.mul_mod_right g k

/-- Witness for C4 at `N = 128`, `groupWidth = 32`. -/
theorem paddedLength_even_and_group_aligned_witness :
    0 < 128 ∧ 0 < 32 ∧
      (paddedLength 128 32 % 2 = 0 ∧ paddedLength 128 32 / 2 % 32 = 0) :=
  ⟨by decide, by decide,
    paddedLength_even_and_group_aligned 128 32 (by decide) (by decide)⟩

/-- C6: when `N + 2` is exactly divisible by `2 * groupWidth`, the
padded-length computation returns exactly `N + 2`: no padding beyond the
minimal requirement. -/
theorem paddedLength_exact_when_divisible (N g : Nat) (hN : 0 < N)
    (hg : 0 < g) (hd : 2 * g ∣ N + 2) : paddedLength N g = N + 2 := by
  obtain ⟨k, hk⟩ := hd
  have hk2 : N + 2 = 2 * (g * k) := by rw [hk]; ring
  have hhalf : (N + 2) / 2 = g * k := by omega
  unfold paddedLength
  rw [hhalf]
  have hmul : roundUpToNearest (g * k) g = g * k := by
    unfold roundUpToNearest
    simp [Nat.mul_mod_right]
  rw [hmul]
  omega

/-- Witness for C6 at `N = 62`, `groupWidth = 32` (`64 = 2*32` divides
`62 + 2`). -/
theorem paddedLength_exact_when_divisible_witness :
    0 < 62 ∧ 0 < 32 ∧ (2 * 32 ∣ 62 + 2) ∧ paddedLength 62 32 = 62 + 2 :=
  ⟨by decide, by decide, by decide,
    paddedLength_exact_when_divisible 62 32 (by decide) (by decide) (by decide)⟩

/-- C7 (counterexample): the claim says a non-positive group width makes
the computation fail fast with an invalid-argument error; in fact the
source has no check, and at `N = 4`, `groupWidth = -32` it returns the
(meaningless) value `-64` instead of any error. -/
theorem paddedLengthE_no_argument_check :
    paddedLengthE 4 (-32) = Except.ok (-64) ∧
      exceptReturnsValue (paddedLengthE 4 (-32)) = true :=
  ⟨rfl, rfl⟩

/-- C7 (amended): the source performs no validation of its arguments:
for every `N` and every nonzero `groupWidth` — negative ones included —
the computation returns a value rather than an error; the only failure
is the division by zero at `groupWidth = 0`. -/
theorem paddedLengthE_ok_of_nonzero_width (N g : Int) (hg : g ≠ 0) :
    exceptReturnsValue (paddedLengthE N g) = true := by
  unfold paddedLengthE roundUpToNearestE
  rw [if_neg hg]
  by_cases h : Int.tmod (Int.tdiv (N + 2) 2) g = 0
  · rw [if_pos h]; rfl
  · rw [if_neg h]; rfl

/-- Witness for C7 (amended) at `N = 4`, `groupWidth = -32`. -/
theorem paddedLengthE_ok_of_nonzero_width_witness :
    (-32 : Int) ≠ 0 ∧ exceptReturnsValue (paddedLengthE 4 (-32)) = true :=
  ⟨by decide, paddedLengthE_ok_of_nonzero_width 4 (-32) (by decide)⟩

/-- C8: the padded-length computation is deterministic and
side-effect-free: threaded through any program state, a second call with
the same inputs returns the same value as the first, and the state is
left unchanged. -/
theorem paddedLength_deterministic_pure {σ : Type} (N g : Nat) (s : σ) :
    (paddedLengthSt N g ((paddedLengthSt N g s).2)).1
        = (paddedLengthSt N g s).1 ∧
      (paddedLengthSt N g s).2 = s :=
  ⟨rfl, rfl⟩

/-- C9: for `N = 128` the padded length fixes the downstream
configuration: `N_bytes` is the padded length times `sizeof(double)`,
the global worker count is the padded length divided by 2, the per-group
width is 32; concretely 1536 bytes and 96 workers. -/
theorem mainConfig_from_paddedLength :
    N_pad_main = paddedLength N_main 32 ∧
      N_bytes_main = paddedLength N_main 32 * sizeof_double ∧
      globalSize_main = paddedLength N_main 32 / 2 ∧
      localSize_main = 32 ∧
      N_bytes_main = 1536 ∧ globalSize_main = 96 := by
  decide

/-- C3 (code evaluated at the failing input): the buffer positions from
`N` up to `N_pad - 1` are not zeroed — `malloc` leaves them holding
whatever was in memory and the initialisation loop stops at `N`.  With
pre-existing memory contents all 1, position 128 (inside the padding
range, since `N_main = 128 ≤ 128 < N_pad_main = 192`) holds 1, not 0,
contradicting the claim (and the source's own comment that the kernel
will operate on zeros). -/
theorem initHostBuffer_padding_uninitialised :
    N_main ≤ 128 ∧ 128 < N_pad_main ∧
      initHostBuffer N_main (fun _ => 1) 128 = 1 ∧
      initHostBuffer N_main (fun _ => 1) 128 ≠ 0 := by
  decide

/-- C10: for every `x` and positive `n`, `roundUpToNearest x n` is the
least multiple of `n` that is at least `x`, and it equals `x` exactly
when `x` is already a multiple of `n`. -/
theorem roundUpToNearest_least_multiple (x n : Nat) (hn : 0 < n) :
    (n ∣ roundUpToNearest x n ∧ x ≤ roundUpToNearest x n ∧
      ∀ m, n ∣ m → x ≤ m → roundUpToNearest x n ≤ m) ∧
    (roundUpToNearest x n = x ↔ n ∣ x) :=
  ⟨⟨roundUpToNearest_dvd x n hn, roundUpToNearest_ge x n,
    fun m hd hx => roundUpToNearest_min x n m hn hd hx⟩,
   roundUpToNearest_eq_self_iff x n hn⟩

/-- Witness for C10 at `x = 65`, `n = 32` (the values of the program's
own run). -/
theorem roundUpToNearest_least_multiple_witness :
    0 < 32 ∧
      ((32 ∣ roundUpToNearest 65 32 ∧ 65 ≤ roundUpToNearest 65 32 ∧
        ∀ m, 32 ∣ m → 65 ≤ m → roundUpToNearest 65 32 ≤ m) ∧
      (roundUpToNearest 65 32 = 65 ↔ 32 ∣ 65)) :=
  ⟨by decide, roundUpToNearest_least_multiple 65 32 (by decide)⟩
